import Mathlib

/-
Verification of the activity-api service layer: a shallow embedding of the
error-classification, authentication, correlation, review, tag and schema
validation code, with theorems settling the specified behaviours.

Python strings are modelled as Lean String where only equality and
substring containment matter, and as List Char where character-level
slicing and stripping matter.  Fallible calls (the asyncpg collaborator,
the jose decoder) are modelled by passing their outcome in as an
Except-valued argument, since the service treats them as black boxes.
-/

/-- The APIException hierarchy of app/core/exceptions.py, reduced to the
fields the handlers render: HTTP status code, stable error code, message. -/
structure APIException where
  status_code : Nat
  error_code : String
  message : String
deriving Repr, DecidableEq

/-- NotFoundException: resource not found (404). -/
def NotFoundException (resource : String) : APIException :=
  { status_code := 404, error_code := "NOT_FOUND", message := resource ++ " not found" }

/-- ForbiddenException: access forbidden (403). -/
def ForbiddenException (message : String) : APIException :=
  { status_code := 403, error_code := "FORBIDDEN", message := message }

/-- ValidationException: validation error (422). -/
def ValidationException (message : String) : APIException :=
  { status_code := 422, error_code := "VALIDATION_ERROR", message := message }

/-- ConflictException: resource conflict (409). -/
def ConflictException (message : String) : APIException :=
  { status_code := 409, error_code := "CONFLICT", message := message }

/-- UnauthorizedException: unauthorized access (401). -/
def UnauthorizedException (message : String) : APIException :=
  { status_code := 401, error_code := "UNAUTHORIZED", message := message }

/-- The opaque fallback returned by map_db_error for unclassified errors
(status 500, code DATABASE_ERROR, message hidden from the caller). -/
def databaseInternalError : APIException :=
  { status_code := 500, error_code := "DATABASE_ERROR", message := "An internal error occurred" }

/-- An error raised by the asyncpg collaborator call: its rendered text plus
the two exception-class facts map_db_error inspects via isinstance. -/
structure DBError where
  msg : String
  isForeignKeyViolation : Bool := false
  isUniqueViolation : Bool := false
deriving Repr, DecidableEq

/-- An exception caught by a service except-block: either an error from the
collaborator call or an APIException raised inside the try body itself
(Python except Exception catches both). -/
inductive PyExc where
  | db (e : DBError)
  | api (e : APIException)
deriving Repr, DecidableEq

/-- Python str() of a caught exception.  For a DBError this is its message;
for an APIException, starlette HTTPException renders the status code, a
colon and the detail text (older starlette renders an empty string, which
classifies identically below since neither form contains an uppercase
underscore token such as NOT_FOUND). -/
def pyExcStr : PyExc → String
  | .db e => e.msg
  | .api e => toString e.status_code ++ ": " ++ e.message

/-- Whether the character list needle occurs at the start of hay. -/
def startsWithChars : List Char → List Char → Bool
  | [], _ => true
  | _ :: _, [] => false
  | a :: as, b :: bs => a = b && startsWithChars as bs

/-- Whether needle occurs contiguously anywhere inside hay. -/
def hasSubstr (needle : List Char) : List Char → Bool
  | [] => needle.isEmpty
  | b :: bs => startsWithChars needle (b :: bs) || hasSubstr needle bs

/-- Python substring containment: needle in hay. -/
def containsTok (needle hay : String) : Bool :=
  hasSubstr needle.toList hay.toList

/-- Whether the caught exception is an asyncpg ForeignKeyViolationError. -/
def PyExc.isFK : PyExc → Bool
  | .db e => e.isForeignKeyViolation
  | .api _ => false

/-- Whether the caught exception is an asyncpg UniqueViolationError. -/
def PyExc.isUnique : PyExc → Bool
  | .db e => e.isUniqueViolation
  | .api _ => false

/-- map_db_error of app/core/exceptions.py: classify a caught exception by
substring matching on str(error), then by asyncpg exception class, with an
opaque 500 fallback. -/
def map_db_error (error : PyExc) : APIException :=
  let error_str := pyExcStr error
  if containsTok "ERR_NOT_FOUND" error_str || containsTok "NOT_FOUND" error_str then
    NotFoundException "Resource"
  else if containsTok "ERR_FORBIDDEN" error_str || containsTok "FORBIDDEN" error_str then
    ForbiddenException error_str
  else if containsTok "ERR_BLOCKED" error_str || containsTok "BLOCKED" error_str then
    ForbiddenException "User is blocked"
  else if containsTok "ERR_VALIDATION" error_str || containsTok "VALIDATION" error_str then
    ValidationException error_str
  else if containsTok "ERR_CONFLICT" error_str || containsTok "CONFLICT" error_str then
    ConflictException error_str
  else if containsTok "ERR_UNAUTHORIZED" error_str || containsTok "UNAUTHORIZED" error_str then
    UnauthorizedException error_str
  else if containsTok "ERR_PREMIUM_REQUIRED" error_str then
    ForbiddenException "Premium subscription required"
  else if containsTok "ERR_USER_NOT_FOUND" error_str then
    NotFoundException "User"
  else if containsTok "ERR_ACTIVITY_NOT_FOUND" error_str then
    NotFoundException "Activity"
  else if containsTok "ERR_CATEGORY_NOT_FOUND" error_str then
    NotFoundException "Category"
  else if error.isFK then
    NotFoundException "Referenced resource"
  else if error.isUnique then
    ConflictException "Resource already exists"
  else
    databaseInternalError

/-- The six API-facing error kinds of the taxonomy. -/
inductive ErrorKind where
  | notFound
  | forbidden
  | validation
  | conflict
  | unauthorized
  | internal
deriving Repr, DecidableEq

/-- HTTP status per kind (spec section 4.3). -/
def statusOfKind : ErrorKind → Nat
  | .notFound => 404
  | .forbidden => 403
  | .validation => 422
  | .conflict => 409
  | .unauthorized => 401
  | .internal => 500

/-- Stable error-code string per kind, as the handlers render it. -/
def codeOfKind : ErrorKind → String
  | .notFound => "NOT_FOUND"
  | .forbidden => "FORBIDDEN"
  | .validation => "VALIDATION_ERROR"
  | .conflict => "CONFLICT"
  | .unauthorized => "UNAUTHORIZED"
  | .internal => "DATABASE_ERROR"

/-- Classifier written from the words of the specification: substring
matching on the error text in the precedence order NOT_FOUND, FORBIDDEN,
BLOCKED, VALIDATION, CONFLICT, UNAUTHORIZED, PREMIUM_REQUIRED,
USER_NOT_FOUND, ACTIVITY_NOT_FOUND, CATEGORY_NOT_FOUND, then the two
constraint-violation signals, then the opaque internal fallback. -/
def specClassify (error : PyExc) : ErrorKind :=
  let s := pyExcStr error
  if containsTok "NOT_FOUND" s then .notFound
  else if containsTok "FORBIDDEN" s then .forbidden
  else if containsTok "BLOCKED" s then .forbidden
  else if containsTok "VALIDATION" s then .validation
  else if containsTok "CONFLICT" s then .conflict
  else if containsTok "UNAUTHORIZED" s then .unauthorized
  else if containsTok "PREMIUM_REQUIRED" s then .forbidden
  else if containsTok "USER_NOT_FOUND" s then .notFound
  else if containsTok "ACTIVITY_NOT_FOUND" s then .notFound
  else if containsTok "CATEGORY_NOT_FOUND" s then .notFound
  else if error.isFK then .notFound
  else if error.isUnique then .conflict
  else .internal

/-- Classifier written from the amended claim: the first six patterns match
both the ERR_-prefixed and the bare token (as the source does), while the
last four match only their ERR_-prefixed forms. -/
def amendedClassify (error : PyExc) : ErrorKind :=
  let s := pyExcStr error
  if containsTok "ERR_NOT_FOUND" s || containsTok "NOT_FOUND" s then .notFound
  else if containsTok "ERR_FORBIDDEN" s || containsTok "FORBIDDEN" s then .forbidden
  else if containsTok "ERR_BLOCKED" s || containsTok "BLOCKED" s then .forbidden
  else if containsTok "ERR_VALIDATION" s || containsTok "VALIDATION" s then .validation
  else if containsTok "ERR_CONFLICT" s || containsTok "CONFLICT" s then .conflict
  else if containsTok "ERR_UNAUTHORIZED" s || containsTok "UNAUTHORIZED" s then .unauthorized
  else if containsTok "ERR_PREMIUM_REQUIRED" s then .forbidden
  else if containsTok "ERR_USER_NOT_FOUND" s then .notFound
  else if containsTok "ERR_ACTIVITY_NOT_FOUND" s then .notFound
  else if containsTok "ERR_CATEGORY_NOT_FOUND" s then .notFound
  else if error.isFK then .notFound
  else if error.isUnique then .conflict
  else .internal

/-- ActivityService.get_activity_by_id: fetch rows, raise
NotFoundException on empty result, return the first row; every exception
escaping the try body (including that NotFoundException) is re-raised as
map_db_error of it.  The collaborator outcome is the argument. -/
def get_activity_by_id (fetched : Except DBError (List α)) : Except APIException α :=
  let body : Except PyExc α :=
    match fetched with
    | .error e => .error (.db e)
    | .ok [] => .error (.api (NotFoundException "Activity"))
    | .ok (r :: _) => .ok r
  match body with
  | .ok r => .ok r
  | .error e => .error (map_db_error e)

/-- ActivityService.update_activity: same empty-result and except-block
shape as get_activity_by_id. -/
def update_activity (fetched : Except DBError (List α)) : Except APIException α :=
  let body : Except PyExc α :=
    match fetched with
    | .error e => .error (.db e)
    | .ok [] => .error (.api (NotFoundException "Activity"))
    | .ok (r :: _) => .ok r
  match body with
  | .ok r => .ok r
  | .error e => .error (map_db_error e)

/-- ActivityService.cancel_activity: same empty-result and except-block
shape as get_activity_by_id. -/
def cancel_activity (fetched : Except DBError (List α)) : Except APIException α :=
  let body : Except PyExc α :=
    match fetched with
    | .error e => .error (.db e)
    | .ok [] => .error (.api (NotFoundException "Activity"))
    | .ok (r :: _) => .ok r
  match body with
  | .ok r => .ok r
  | .error e => .error (map_db_error e)

/-- ActivityService.delete_activity: same empty-result and except-block
shape as get_activity_by_id. -/
def delete_activity (fetched : Except DBError (List α)) : Except APIException α :=
  let body : Except PyExc α :=
    match fetched with
    | .error e => .error (.db e)
    | .ok [] => .error (.api (NotFoundException "Activity"))
    | .ok (r :: _) => .ok r
  match body with
  | .ok r => .ok r
  | .error e => .error (map_db_error e)

/-- A guarded if-elif cascade: the result paired with the first true guard,
or the default.  A nested if-else chain unfolds definitionally to this. -/
def firstMatch {α : Type} : List (Bool × α) → α → α
  | [], d => d
  | (b, a) :: rest, d => if b then a else firstMatch rest d

/-- The claims object a jose-decoded JWT yields: every claim optional,
exactly the keys TokenPayload reads. -/
structure JWTClaims where
  sub : Option String := none
  email : Option String := none
  subscription_level : Option String := none
  ghost_mode : Option Bool := none
  roles : Option (List String) := none
  org_id : Option String := none
  exp : Option Nat := none
  iat : Option Nat := none
  type : Option String := none
deriving Repr, DecidableEq

/-- TokenPayload of app/core/security.py: the principal built from a
decoded payload dict. -/
structure TokenPayload where
  user_id : Option String
  email : Option String
  subscription_level : String
  ghost_mode : Bool
  roles : List String
  org_id : Option String
  exp : Option Nat
  iat : Option Nat
  token_type : String
deriving Repr, DecidableEq

/-- TokenPayload construction from the decoded payload: payload.get with
the literal defaults of the source (subscription_level "free", ghost_mode
False, roles the singleton user list, type "access"); sub, email, org_id,
exp and iat have no default and stay optional. -/
def TokenPayload.ofDict (payload : JWTClaims) : TokenPayload :=
  { user_id := payload.sub
    email := payload.email
    subscription_level := payload.subscription_level.getD "free"
    ghost_mode := payload.ghost_mode.getD false
    roles := payload.roles.getD ["user"]
    org_id := payload.org_id
    exp := payload.exp
    iat := payload.iat
    token_type := payload.type.getD "access" }

/-- decode_token of app/core/security.py.  The jose decode outcome is the
argument: ok with the claims when signature and expiry validate, error
(JWTError text) otherwise; a JWTError raises UnauthorizedException. -/
def decode_token (joseOutcome : Except String JWTClaims) : Except APIException TokenPayload :=
  match joseOutcome with
  | .ok payload => .ok (TokenPayload.ofDict payload)
  | .error _ => .error (UnauthorizedException "Invalid or expired token")

/-- Python whitespace class used by str.strip and str.split with no
arguments (ASCII portion). -/
def isPySpace (c : Char) : Bool :=
  c = ' ' || c = '\t' || c = '\n' || c = '\r' || c = '\x0b' || c = '\x0c'

/-- Python str.split with no arguments: maximal non-whitespace runs, no
empty pieces.  Strings are modelled at character-list level. -/
def pySplitWS (s : List Char) : List (List Char) :=
  (s.splitOnP isPySpace).filter (fun w => !w.isEmpty)

/-- Python str.lower at character-list level (ASCII). -/
def pyLower (s : List Char) : List Char :=
  s.map Char.toLower

/-- get_current_user of app/core/security.py: reject a missing or empty
Authorization header, split it on whitespace, require exactly two parts
with scheme bearer case-insensitively, then decode the token.  The jose
decoder is passed in as a function from token to outcome. -/
def get_current_user (authorization : Option (List Char))
    (joseDecode : List Char → Except String JWTClaims) : Except APIException TokenPayload :=
  match authorization with
  | none => .error (UnauthorizedException "Missing authorization header")
  | some a =>
    if a.isEmpty then .error (UnauthorizedException "Missing authorization header")
    else
      match pySplitWS a with
      | [scheme, token] =>
        if pyLower scheme = "bearer".toList then decode_token (joseDecode token)
        else .error (UnauthorizedException "Invalid authorization header format")
      | _ => .error (UnauthorizedException "Invalid authorization header format")

/-- An HTTP response as the middleware sees it: status, an abstract body
tag, and mutable headers. -/
structure HTTPResponse where
  status : Nat
  body : String
  headers : List (String × String)
deriving Repr, DecidableEq

/-- Python response.headers assignment: set the key to the value,
replacing any previous value. -/
def setHeader (r : HTTPResponse) (k v : String) : HTTPResponse :=
  { r with headers := (k, v) :: r.headers.filter (fun p => p.1 ≠ k) }

/-- Header lookup on a response. -/
def getHeader (r : HTTPResponse) (k : String) : Option String :=
  (r.headers.find? (fun p => p.1 == k)).map Prod.snd

/-- Correlation-id resolution of CorrelationMiddleware.dispatch: the
inbound X-Correlation-ID header if present and truthy (non-empty), else
the freshly minted uuid4 string, which is the second argument. -/
def resolveCorrelationId (inboundHeader : Option String) (freshUuid : String) : String :=
  match inboundHeader with
  | some h => if h = "" then freshUuid else h
  | none => freshUuid

/-- CorrelationMiddleware.dispatch: resolve the correlation id, run the
rest of the stack (its outcome is the argument: a response, or a raised
exception as an error string), attach the id to the response headers on
the success path, and re-raise on the exception path. -/
def correlationDispatch (inboundHeader : Option String) (freshUuid : String)
    (callNext : Except String HTTPResponse) : Except String HTTPResponse :=
  let correlation_id := resolveCorrelationId inboundHeader freshUuid
  match callNext with
  | .ok response => .ok (setHeader response "X-Correlation-ID" correlation_id)
  | .error e => .error e

/-- A row of activity.sp_get_activity_reviews as the service reads it. -/
structure ReviewRow where
  review_id : Option String
  activity_id : String
  total_reviews : Nat
  average_rating : Option Int
  rating : Nat
  review_text : Option String
  is_anonymous : Bool
  created_at : Nat
  updated_at : Option Nat
  is_own_review : Bool
  reviewer_user_id : Option String
  reviewer_username : Option String
  reviewer_first_name : Option String
  reviewer_main_photo_url : Option String
  reviewer_is_verified : Option Bool
deriving Repr, DecidableEq

/-- The reviewer object the listing attaches to a non-anonymous review. -/
structure ReviewerInfo where
  user_id : String
  username : Option String
  first_name : Option String
  main_photo_url : Option String
  is_verified : Option Bool
deriving Repr, DecidableEq

/-- One review item of the listing output. -/
structure ReviewOut where
  review_id : String
  activity_id : String
  rating : Nat
  review_text : Option String
  is_anonymous : Bool
  created_at : Nat
  updated_at : Option Nat
  is_own_review : Bool
  reviewer : Option ReviewerInfo
deriving Repr, DecidableEq

/-- The review-listing result dict. -/
structure ReviewListResult where
  activity_id : String
  total_reviews : Nat
  average_rating : Option Int
  reviews : List ReviewOut
deriving Repr, DecidableEq

/-- The per-row body of the ReviewService.list_reviews loop: skip rows
with a null review_id; attach reviewer info only when the row is not
anonymous and carries a reviewer_user_id, else reviewer is null. -/
def buildReviewItem (row : ReviewRow) : Option ReviewOut :=
  match row.review_id with
  | none => none
  | some rid =>
    some { review_id := rid
           activity_id := row.activity_id
           rating := row.rating
           review_text := row.review_text
           is_anonymous := row.is_anonymous
           created_at := row.created_at
           updated_at := row.updated_at
           is_own_review := row.is_own_review
           reviewer :=
             if !row.is_anonymous then
               match row.reviewer_user_id with
               | some uid =>
                 some { user_id := uid
                        username := row.reviewer_username
                        first_name := row.reviewer_first_name
                        main_photo_url := row.reviewer_main_photo_url
                        is_verified := row.reviewer_is_verified }
               | none => none
             else none }

/-- ReviewService.list_reviews: fetch rows; on empty result probe whether
the activity row exists (the probe outcome is the third argument and is
only consulted on the empty path, as in the source), raise
NotFoundException when it does not, return the zero-count dict when it
does; on rows, build the aggregate from the first row and the filtered
item list.  Every exception escaping the try body, including the
NotFoundException raised inside it, is re-raised as map_db_error of it.
Python numeric truthiness makes a stored average of 0 render as null. -/
def list_reviews (activity_id : String) (fetched : Except DBError (List ReviewRow))
    (activityProbe : Except DBError Bool) : Except APIException ReviewListResult :=
  let body : Except PyExc ReviewListResult :=
    match fetched with
    | .error e => .error (.db e)
    | .ok [] =>
      match activityProbe with
      | .error e => .error (.db e)
      | .ok false => .error (.api (NotFoundException "Activity"))
      | .ok true => .ok { activity_id := activity_id, total_reviews := 0, average_rating := none, reviews := [] }
    | .ok (r0 :: rest) =>
      .ok { activity_id := r0.activity_id
            total_reviews := r0.total_reviews
            average_rating :=
              match r0.average_rating with
              | some a => if a = 0 then none else some a
              | none => none
            reviews := (r0 :: rest).filterMap buildReviewItem }
  match body with
  | .ok r => .ok r
  | .error e => .error (map_db_error e)

/-- A review as the collaborator stores it. -/
structure StoredReview where
  review_id : String
  activity_id : String
  rating : Nat
  review_text : Option String
  is_anonymous : Bool
  created_at : Nat
  updated_at : Option Nat
  reviewer_user_id : String
  reviewer_username : String
  reviewer_first_name : Option String
  reviewer_main_photo_url : Option String
  reviewer_is_verified : Bool
deriving Repr, DecidableEq

/-- Modelled from the spec: the stored procedure
activity.sp_get_activity_reviews is not part of src (only its caller is).
Per the spec, review listing optionally personalizes is_own_review and
the listing carries the reviewer columns of the stored review; the row
produced for a stored review therefore copies the stored reviewer fields
independently of the requester, and is_own_review is true exactly when the
requesting user is the reviewer. -/
def sp_get_activity_reviews_row (total : Nat) (avg : Option Int)
    (requester : Option String) (s : StoredReview) : ReviewRow :=
  { review_id := some s.review_id
    activity_id := s.activity_id
    total_reviews := total
    average_rating := avg
    rating := s.rating
    review_text := s.review_text
    is_anonymous := s.is_anonymous
    created_at := s.created_at
    updated_at := s.updated_at
    is_own_review := decide (requester = some s.reviewer_user_id)
    reviewer_user_id := some s.reviewer_user_id
    reviewer_username := some s.reviewer_username
    reviewer_first_name := s.reviewer_first_name
    reviewer_main_photo_url := s.reviewer_main_photo_url
    reviewer_is_verified := some s.reviewer_is_verified }

/-- Python str.strip with no arguments at character-list level: drop
leading and trailing whitespace. -/
def pyStrip (s : List Char) : List Char :=
  ((s.dropWhile isPySpace).reverse.dropWhile isPySpace).reverse

/-- validate_tags of ActivityCreate and ActivityUpdate in
app/schemas/activity.py: reject more than 20 tags, else keep the tags
that are non-empty after stripping, each stripped and sliced to its first
100 characters. -/
def validate_tags (v : List (List Char)) : Except String (List (List Char)) :=
  if v.length > 20 then .error "Maximum 20 tags allowed"
  else .ok ((v.filter (fun tag => !(pyStrip tag).isEmpty)).map (fun tag => (pyStrip tag).take 100))

/-- The response FastAPI renders for a RequestValidationError (a pydantic
validator raising ValueError): validation_exception_handler of
app/core/exceptions.py. -/
def requestValidationError : APIException :=
  { status_code := 422, error_code := "VALIDATION_ERROR", message := "Request validation failed" }

/-- The outcome of submitting a tag list through schema validation: the
normalized tags, or the 422 VALIDATION_ERROR response. -/
def tags_request_outcome (v : List (List Char)) : Except APIException (List (List Char)) :=
  match validate_tags v with
  | .ok tags => .ok tags
  | .error _ => .error requestValidationError

/-- The normalized tag list of an accepted request (empty on rejection),
used to speak about the output collection. -/
def okTags (v : List (List Char)) : List (List Char) :=
  match validate_tags v with
  | .ok tags => tags
  | .error _ => []

/-- TagService.get_popular_tags of app/services/tag_service.py, reduced to
the arguments it passes to activity.sp_get_popular_tags: the limit clamped
with min to 100, and the unchanged optional filter string. -/
def get_popular_tags (limit : Int) (pfx : Option String) : Int × Option String :=
  (min limit 100, pfx)

/-- The popular-tags route of app/routes/tags.py: the limit query
parameter is declared with bounds ge 1 and le 100, so an out-of-range
value fails request validation with 422 before the service runs;
otherwise the service is called. -/
def popular_tags_route (limit : Int) (pfx : Option String) : Except APIException (Int × Option String) :=
  if limit < 1 || 100 < limit then .error requestValidationError
  else .ok (get_popular_tags limit pfx)

/-- A concrete anonymous stored review used to instantiate the masking
theorem. -/
def sampleStoredReview : StoredReview :=
  { review_id := "r1", activity_id := "a1", rating := 5, review_text := none,
    is_anonymous := true, created_at := 0, updated_at := none,
    reviewer_user_id := "alice", reviewer_username := "alice-name",
    reviewer_first_name := none, reviewer_main_photo_url := none,
    reviewer_is_verified := false }

/-- A concrete 101-character tag used to instantiate the truncation
theorem. -/
def longTagExample : List Char := List.replicate 101 'a'

/-- A concrete jose-decoder stub accepting exactly one token, used to
instantiate the authentication theorem. -/
def joseStubExample : List Char → Except String JWTClaims :=
  fun token => if token = "tok123".toList then .ok { sub := some "user-1" }
    else .error "Signature verification failed"

theorem firstMatch_forall2 {α β : Type} {R : α → β → Prop} :
    ∀ {l₁ : List (Bool × α)} {l₂ : List (Bool × β)},
      List.Forall₂ (fun p q => p.1 = q.1 ∧ R p.2 q.2) l₁ l₂ →
      ∀ {d₁ : α} {d₂ : β}, R d₁ d₂ → R (firstMatch l₁ d₁) (firstMatch l₂ d₂) := by
  intro l₁ l₂ h
  induction h with
  | nil => intro d₁ d₂ hd; exact hd
  | @cons p q t₁ t₂ hpq _ ih =>
    intro d₁ d₂ hd
    obtain ⟨hb, hR⟩ := hpq
    obtain ⟨b, x⟩ := p
    obtain ⟨b', y⟩ := q
    simp only at hb
    subst hb
    cases b with
    | false => simpa [firstMatch] using ih hd
    | true => simpa [firstMatch] using hR

theorem map_db_error_as_cascade (e : PyExc) :
    map_db_error e = firstMatch
      [(containsTok "ERR_NOT_FOUND" (pyExcStr e) || containsTok "NOT_FOUND" (pyExcStr e), NotFoundException "Resource"),
       (containsTok "ERR_FORBIDDEN" (pyExcStr e) || containsTok "FORBIDDEN" (pyExcStr e), ForbiddenException (pyExcStr e)),
       (containsTok "ERR_BLOCKED" (pyExcStr e) || containsTok "BLOCKED" (pyExcStr e), ForbiddenException "User is blocked"),
       (containsTok "ERR_VALIDATION" (pyExcStr e) || containsTok "VALIDATION" (pyExcStr e), ValidationException (pyExcStr e)),
       (containsTok "ERR_CONFLICT" (pyExcStr e) || containsTok "CONFLICT" (pyExcStr e), ConflictException (pyExcStr e)),
       (containsTok "ERR_UNAUTHORIZED" (pyExcStr e) || containsTok "UNAUTHORIZED" (pyExcStr e), UnauthorizedException (pyExcStr e)),
       (containsTok "ERR_PREMIUM_REQUIRED" (pyExcStr e), ForbiddenException "Premium subscription required"),
       (containsTok "ERR_USER_NOT_FOUND" (pyExcStr e), NotFoundException "User"),
       (containsTok "ERR_ACTIVITY_NOT_FOUND" (pyExcStr e), NotFoundException "Activity"),
       (containsTok "ERR_CATEGORY_NOT_FOUND" (pyExcStr e), NotFoundException "Category"),
       (e.isFK, NotFoundException "Referenced resource"),
       (e.isUnique, ConflictException "Resource already exists")]
      databaseInternalError := rfl

theorem amendedClassify_as_cascade (e : PyExc) :
    amendedClassify e = firstMatch
      [(containsTok "ERR_NOT_FOUND" (pyExcStr e) || containsTok "NOT_FOUND" (pyExcStr e), ErrorKind.notFound),
       (containsTok "ERR_FORBIDDEN" (pyExcStr e) || containsTok "FORBIDDEN" (pyExcStr e), ErrorKind.forbidden),
       (containsTok "ERR_BLOCKED" (pyExcStr e) || containsTok "BLOCKED" (pyExcStr e), ErrorKind.forbidden),
       (containsTok "ERR_VALIDATION" (pyExcStr e) || containsTok "VALIDATION" (pyExcStr e), ErrorKind.validation),
       (containsTok "ERR_CONFLICT" (pyExcStr e) || containsTok "CONFLICT" (pyExcStr e), ErrorKind.conflict),
       (containsTok "ERR_UNAUTHORIZED" (pyExcStr e) || containsTok "UNAUTHORIZED" (pyExcStr e), ErrorKind.unauthorized),
       (containsTok "ERR_PREMIUM_REQUIRED" (pyExcStr e), ErrorKind.forbidden),
       (containsTok "ERR_USER_NOT_FOUND" (pyExcStr e), ErrorKind.notFound),
       (containsTok "ERR_ACTIVITY_NOT_FOUND" (pyExcStr e), ErrorKind.notFound),
       (containsTok "ERR_CATEGORY_NOT_FOUND" (pyExcStr e), ErrorKind.notFound),
       (e.isFK, ErrorKind.notFound),
       (e.isUnique, ErrorKind.conflict)]
      ErrorKind.internal := rfl

/-- C1: on an error-free collaborator call returning zero rows, every
id-addressed activity operation raises NotFoundException inside its own
try block, catches it again, and re-maps it through map_db_error, whose
substring checks do not match the rendered text, so the caller receives
the 500 DATABASE_ERROR response instead of the claimed 404 NOT_FOUND. -/
theorem C1_empty_result_is_500_not_404 :
    get_activity_by_id (α := Unit) (.ok []) = .error databaseInternalError ∧
    update_activity (α := Unit) (.ok []) = .error databaseInternalError ∧
    cancel_activity (α := Unit) (.ok []) = .error databaseInternalError ∧
    delete_activity (α := Unit) (.ok []) = .error databaseInternalError ∧
    databaseInternalError.status_code = 500 ∧
    databaseInternalError.error_code ≠ "NOT_FOUND" := by
  refine ⟨rfl, rfl, rfl, rfl, rfl, ?_⟩
  decide

/-- C2 counterexample: an error text containing the bare token
PREMIUM_REQUIRED (without the ERR_ prefix) is classified forbidden by the
precedence table of the claim, but map_db_error leaves it unmatched and
returns the 500 fallback, so the classifier does not follow the table as
stated. -/
theorem C2_counterexample_bare_premium_required :
    specClassify (.db { msg := "PREMIUM_REQUIRED" }) = .forbidden ∧
    statusOfKind .forbidden = 403 ∧
    (map_db_error (.db { msg := "PREMIUM_REQUIRED" })).status_code = 500 ∧
    (map_db_error (.db { msg := "PREMIUM_REQUIRED" })).status_code ≠
      statusOfKind (specClassify (.db { msg := "PREMIUM_REQUIRED" })) := by
  refine ⟨rfl, rfl, rfl, ?_⟩
  decide

/-- C2 amended: the classifier follows the precedence table with the four
low-precedence patterns matched only in ERR_-prefixed form (the first six
match both forms); in particular ERR_BLOCKED maps to 403 FORBIDDEN, a
referential-integrity violation to NOT_FOUND on Referenced resource, a
uniqueness violation to 409 CONFLICT, and an unmatched error to the
opaque 500 internal error. -/
theorem C2_classifier_follows_amended_table :
    (∀ e, (map_db_error e).status_code = statusOfKind (amendedClassify e) ∧
          (map_db_error e).error_code = codeOfKind (amendedClassify e)) ∧
    map_db_error (.db { msg := "db error: ERR_BLOCKED" }) = ForbiddenException "User is blocked" ∧
    (ForbiddenException "User is blocked").status_code = 403 ∧
    map_db_error (.db { msg := "insert or update violates foreign key constraint", isForeignKeyViolation := true }) =
      NotFoundException "Referenced resource" ∧
    map_db_error (.db { msg := "duplicate key value violates unique constraint", isUniqueViolation := true }) =
      ConflictException "Resource already exists" ∧
    (ConflictException "Resource already exists").status_code = 409 ∧
    map_db_error (.db { msg := "connection reset by peer" }) = databaseInternalError ∧
    databaseInternalError.message = "An internal error occurred" := by
  refine ⟨?_, rfl, rfl, rfl, rfl, rfl, rfl, rfl⟩
  intro e
  rw [map_db_error_as_cascade, amendedClassify_as_cascade]
  exact firstMatch_forall2
    (R := fun (a : APIException) (k : ErrorKind) =>
      a.status_code = statusOfKind k ∧ a.error_code = codeOfKind k)
    (.cons ⟨rfl, rfl, rfl⟩ (.cons ⟨rfl, rfl, rfl⟩ (.cons ⟨rfl, rfl, rfl⟩ (.cons ⟨rfl, rfl, rfl⟩
     (.cons ⟨rfl, rfl, rfl⟩ (.cons ⟨rfl, rfl, rfl⟩ (.cons ⟨rfl, rfl, rfl⟩ (.cons ⟨rfl, rfl, rfl⟩
     (.cons ⟨rfl, rfl, rfl⟩ (.cons ⟨rfl, rfl, rfl⟩ (.cons ⟨rfl, rfl, rfl⟩ (.cons ⟨rfl, rfl, rfl⟩
     .nil))))))))))))
    ⟨rfl, rfl⟩

/-- C3 counterexample: a token that decodes with an explicit empty roles
claim and a subscription_level of gold yields a Principal whose role set
is empty and whose tier is outside the free, premium, club set. -/
theorem C3_counterexample_passthrough_claims :
    decode_token (.ok { sub := some "user-1", roles := some [], subscription_level := some "gold" }) =
      .ok (TokenPayload.ofDict { sub := some "user-1", roles := some [], subscription_level := some "gold" }) ∧
    (TokenPayload.ofDict { sub := some "user-1", roles := some [], subscription_level := some "gold" }).roles = [] ∧
    (TokenPayload.ofDict { sub := some "user-1", roles := some [], subscription_level := some "gold" }).subscription_level = "gold" ∧
    ¬("gold" = "free" ∨ "gold" = "premium" ∨ "gold" = "club") := by
  refine ⟨rfl, rfl, rfl, ?_⟩
  decide

/-- C3 amended: when the decoded payload carries no roles claim and no
subscription_level claim, the Principal defaults to the singleton user
role set (non-empty) and the free tier (inside the allowed set); an
explicitly supplied claim is passed through unvalidated. -/
theorem C3_token_payload_defaults (p : JWTClaims)
    (hr : p.roles = none) (hs : p.subscription_level = none) :
    decode_token (.ok p) = .ok (TokenPayload.ofDict p) ∧
    (TokenPayload.ofDict p).roles = ["user"] ∧
    (TokenPayload.ofDict p).roles ≠ [] ∧
    (TokenPayload.ofDict p).subscription_level = "free" ∧
    ((TokenPayload.ofDict p).subscription_level = "free" ∨
     (TokenPayload.ofDict p).subscription_level = "premium" ∨
     (TokenPayload.ofDict p).subscription_level = "club") := by
  refine ⟨rfl, ?_, ?_, ?_, ?_⟩ <;> simp [TokenPayload.ofDict, hr, hs]

theorem C3_token_payload_defaults_witness :
    decode_token (.ok ({} : JWTClaims)) = .ok (TokenPayload.ofDict {}) ∧
    (TokenPayload.ofDict ({} : JWTClaims)).roles ≠ [] ∧
    (TokenPayload.ofDict ({} : JWTClaims)).subscription_level = "free" :=
  ⟨(C3_token_payload_defaults {} rfl rfl).1,
   (C3_token_payload_defaults {} rfl rfl).2.2.1,
   (C3_token_payload_defaults {} rfl rfl).2.2.2.1⟩

/-- C4: the middleware reuses a present non-empty inbound correlation
header, otherwise uses the freshly minted uuid string (non-empty); the
resolved identifier is attached to every response the dispatch returns,
and a raised exception is re-raised unchanged. -/
theorem C4_correlation_id_resolution (inbound : Option String) (fresh : String)
    (hf : fresh ≠ "") :
    (∀ h, inbound = some h → h ≠ "" → resolveCorrelationId inbound fresh = h) ∧
    (inbound = none → resolveCorrelationId inbound fresh = fresh) ∧
    (inbound = some "" → resolveCorrelationId inbound fresh = fresh) ∧
    resolveCorrelationId inbound fresh ≠ "" ∧
    (∀ r, correlationDispatch inbound fresh (.ok r) =
        .ok (setHeader r "X-Correlation-ID" (resolveCorrelationId inbound fresh))) ∧
    (∀ r, getHeader (setHeader r "X-Correlation-ID" (resolveCorrelationId inbound fresh))
        "X-Correlation-ID" = some (resolveCorrelationId inbound fresh)) ∧
    (∀ e, correlationDispatch inbound fresh (.error e) = .error e) := by
  refine ⟨?_, ?_, ?_, ?_, ?_, ?_, ?_⟩
  · intro h hh hne
    subst hh
    simp [resolveCorrelationId, hne]
  · intro hh
    subst hh
    rfl
  · intro hh
    subst hh
    rfl
  · cases inbound with
    | none => simpa [resolveCorrelationId] using hf
    | some h =>
      by_cases hne : h = ""
      · simpa [resolveCorrelationId, hne] using hf
      · simp [resolveCorrelationId, hne]
  · intro r
    rfl
  · intro r
    rfl
  · intro e
    rfl

theorem C4_correlation_id_resolution_witness :
    resolveCorrelationId (some "abc") "3f2a" = "abc" ∧
    correlationDispatch (some "abc") "3f2a" (.ok { status := 200, body := "ok", headers := [] }) =
      .ok (setHeader { status := 200, body := "ok", headers := [] } "X-Correlation-ID"
            (resolveCorrelationId (some "abc") "3f2a")) ∧
    getHeader (setHeader { status := 200, body := "ok", headers := [] } "X-Correlation-ID"
        (resolveCorrelationId (some "abc") "3f2a")) "X-Correlation-ID" =
      some (resolveCorrelationId (some "abc") "3f2a") :=
  ⟨(C4_correlation_id_resolution (some "abc") "3f2a" (by decide)).1 "abc" rfl (by decide),
   (C4_correlation_id_resolution (some "abc") "3f2a" (by decide)).2.2.2.2.1 _,
   (C4_correlation_id_resolution (some "abc") "3f2a" (by decide)).2.2.2.2.2.1 _⟩

/-- C5: on a zero-row primary result the service probes for the activity;
when it exists the caller gets the zero-count success dict, but when it
does not the NotFoundException raised inside the try block is re-mapped by
map_db_error into the 500 DATABASE_ERROR response instead of the claimed
404; the probe outcome is irrelevant whenever rows come back. -/
theorem C5_review_listing_zero_rows :
    list_reviews "a1" (.ok []) (.ok true) =
      .ok { activity_id := "a1", total_reviews := 0, average_rating := none, reviews := [] } ∧
    list_reviews "a1" (.ok []) (.ok false) = .error databaseInternalError ∧
    databaseInternalError.status_code = 500 ∧
    databaseInternalError.error_code ≠ "NOT_FOUND" ∧
    (∀ r rest probeA probeB,
      list_reviews "a1" (.ok (r :: rest)) probeA = list_reviews "a1" (.ok (r :: rest)) probeB) := by
  refine ⟨rfl, rfl, rfl, by decide, ?_⟩
  intro r rest probeA probeB
  rfl

theorem buildReviewItem_sp_row (total : Nat) (avg : Option Int)
    (req : Option String) (s : StoredReview) :
    buildReviewItem (sp_get_activity_reviews_row total avg req s) =
      some { review_id := s.review_id
             activity_id := s.activity_id
             rating := s.rating
             review_text := s.review_text
             is_anonymous := s.is_anonymous
             created_at := s.created_at
             updated_at := s.updated_at
             is_own_review := decide (req = some s.reviewer_user_id)
             reviewer :=
               if !s.is_anonymous then
                 some { user_id := s.reviewer_user_id
                        username := some s.reviewer_username
                        first_name := s.reviewer_first_name
                        main_photo_url := s.reviewer_main_photo_url
                        is_verified := some s.reviewer_is_verified }
               else none } := rfl

/-- C6: in review-listing output built from collaborator rows, the
reviewer field of an anonymous review is null, the whole reviewer column
of the output is independent of the requesting principal, and
is_own_review is true exactly for the original reviewer. -/
theorem C6_anonymous_review_masking (stored : List StoredReview) (total : Nat)
    (avg : Option Int) (reqA reqB : Option String) :
    ((stored.map (sp_get_activity_reviews_row total avg reqA)).filterMap buildReviewItem).map ReviewOut.reviewer =
      ((stored.map (sp_get_activity_reviews_row total avg reqB)).filterMap buildReviewItem).map ReviewOut.reviewer ∧
    (∀ s ∈ stored, s.is_anonymous = true →
      (buildReviewItem (sp_get_activity_reviews_row total avg reqA s)).map ReviewOut.reviewer = some none) ∧
    (∀ s ∈ stored,
      (buildReviewItem (sp_get_activity_reviews_row total avg reqA s)).map ReviewOut.is_own_review =
        some (decide (reqA = some s.reviewer_user_id))) := by
  refine ⟨?_, ?_, ?_⟩
  · induction stored with
    | nil => rfl
    | cons s t ih =>
      simp only [List.map_cons, List.filterMap_cons, buildReviewItem_sp_row, ih]
  · intro s hs hanon
    rw [buildReviewItem_sp_row]
    simp [hanon]
  · intro s hs
    rw [buildReviewItem_sp_row]
    rfl

theorem C6_anonymous_review_masking_witness :
    (buildReviewItem (sp_get_activity_reviews_row 1 none (some "bob") sampleStoredReview)).map ReviewOut.reviewer = some none ∧
    (buildReviewItem (sp_get_activity_reviews_row 1 none (some "alice") sampleStoredReview)).map ReviewOut.is_own_review = some true ∧
    (buildReviewItem (sp_get_activity_reviews_row 1 none (some "bob") sampleStoredReview)).map ReviewOut.is_own_review = some false := by
  refine ⟨?_, ?_, ?_⟩
  · exact (C6_anonymous_review_masking [sampleStoredReview] 1 none (some "bob") (some "alice")).2.1
      sampleStoredReview (by simp) rfl
  · have h := (C6_anonymous_review_masking [sampleStoredReview] 1 none (some "alice") (some "bob")).2.2
      sampleStoredReview (by simp)
    simpa [sampleStoredReview] using h
  · have h := (C6_anonymous_review_masking [sampleStoredReview] 1 none (some "bob") (some "alice")).2.2
      sampleStoredReview (by simp)
    simpa [sampleStoredReview] using h

theorem map_filter_eq_filterMap {α β : Type} (p : α → Bool) (f : α → β) (l : List α) :
    (l.filter p).map f = l.filterMap (fun a => if p a then some (f a) else none) := by
  induction l with
  | nil => rfl
  | cons a t ih =>
    by_cases h : p a <;> simp [h, ih]

/-- C7: tag normalization strips whitespace, drops entries that are empty
after stripping and caps each stripped tag at 100 characters, so the
sample input yields Hiking and music; a 21-element tag list fails schema
validation and renders as 422 VALIDATION_ERROR. -/
theorem C7_tag_normalization :
    validate_tags ["  Hiking ".toList, "".toList, "music".toList] =
      .ok ["Hiking".toList, "music".toList] ∧
    (∀ v, v.length = 21 → tags_request_outcome v = .error requestValidationError) ∧
    requestValidationError.status_code = 422 ∧
    requestValidationError.error_code = "VALIDATION_ERROR" ∧
    (∀ v, v.length ≤ 20 → validate_tags v =
      .ok (v.filterMap (fun tag =>
        if !(pyStrip tag).isEmpty then some ((pyStrip tag).take 100) else none))) := by
  refine ⟨rfl, ?_, rfl, rfl, ?_⟩
  · intro v hv
    have h21 : v.length > 20 := by omega
    simp [tags_request_outcome, validate_tags, h21]
  · intro v hv
    have h20 : ¬ (v.length > 20) := by omega
    simp [validate_tags, h20, map_filter_eq_filterMap]

theorem C7_tag_normalization_witness :
    tags_request_outcome (List.replicate 21 "x".toList) = .error requestValidationError ∧
    validate_tags ["  Hiking ".toList, "".toList, "music".toList] =
      .ok ["Hiking".toList, "music".toList] :=
  ⟨C7_tag_normalization.2.1 (List.replicate 21 "x".toList) (by simp),
   C7_tag_normalization.1⟩

/-- C10: an individual tag longer than 100 characters after stripping is
not rejected; the request passes schema validation and the tag appears in
the output truncated to its first 100 characters. -/
theorem C10_overlength_tags_truncated (v : List (List Char)) (hv : v.length ≤ 20) :
    (tags_request_outcome v).isOk = true ∧
    (∀ tag ∈ v, 100 < (pyStrip tag).length →
      (pyStrip tag).take 100 ∈ okTags v ∧ ((pyStrip tag).take 100).length = 100) := by
  have h20 : ¬ (v.length > 20) := by omega
  constructor
  · simp [tags_request_outcome, validate_tags, h20, Except.isOk, Except.toBool]
  · intro tag htag hlen
    have hne : (!(pyStrip tag).isEmpty) = true := by
      cases hps : pyStrip tag with
      | nil => rw [hps] at hlen; simp at hlen
      | cons c cs => simp
    constructor
    · have hmemf : tag ∈ v.filter (fun tag => !(pyStrip tag).isEmpty) :=
        List.mem_filter_of_mem htag hne
      have : (pyStrip tag).take 100 ∈
          (v.filter (fun tag => !(pyStrip tag).isEmpty)).map (fun tag => (pyStrip tag).take 100) :=
        List.mem_map_of_mem _ hmemf
      simpa [okTags, validate_tags, h20] using this
    · rw [List.length_take]
      omega

theorem C10_overlength_tags_truncated_witness :
    (tags_request_outcome [longTagExample]).isOk = true ∧
    (pyStrip longTagExample).take 100 ∈ okTags [longTagExample] ∧
    ((pyStrip longTagExample).take 100).length = 100 := by
  have hlen : 100 < (pyStrip longTagExample).length := by decide
  refine ⟨(C10_overlength_tags_truncated [longTagExample] (by simp)).1, ?_, ?_⟩
  · exact ((C10_overlength_tags_truncated [longTagExample] (by simp)).2 longTagExample (by simp) hlen).1
  · exact ((C10_overlength_tags_truncated [longTagExample] (by simp)).2 longTagExample (by simp) hlen).2

theorem get_current_user_some_eq (a : List Char)
    (jd : List Char → Except String JWTClaims) :
    get_current_user (some a) jd =
      (if a.isEmpty then .error (UnauthorizedException "Missing authorization header")
       else
         match pySplitWS a with
         | [scheme, token] =>
           if pyLower scheme = "bearer".toList then decode_token (jd token)
           else .error (UnauthorizedException "Invalid authorization header format")
         | _ => .error (UnauthorizedException "Invalid authorization header format")) := rfl

/-- C8: authentication of a request fails exactly when the Authorization
header is absent or empty, does not split into exactly two whitespace
separated parts with a case-insensitive bearer scheme, or the token fails
jose decoding (bad signature or expired); every failure is a 401 with
code UNAUTHORIZED, and otherwise the Principal of the decoded payload is
produced. -/
theorem C8_authentication_characterization (authorization : Option (List Char))
    (joseDecode : List Char → Except String JWTClaims) :
    (∀ e, get_current_user authorization joseDecode = .error e →
        e.status_code = 401 ∧ e.error_code = "UNAUTHORIZED") ∧
    ((∃ tp, get_current_user authorization joseDecode = .ok tp) ↔
      (∃ a scheme token payload, authorization = some a ∧ a.isEmpty = false ∧
        pySplitWS a = [scheme, token] ∧ pyLower scheme = "bearer".toList ∧
        joseDecode token = .ok payload)) ∧
    (∀ a scheme token payload, authorization = some a → a.isEmpty = false →
        pySplitWS a = [scheme, token] → pyLower scheme = "bearer".toList →
        joseDecode token = .ok payload →
        get_current_user authorization joseDecode = .ok (TokenPayload.ofDict payload)) := by
  cases authorization with
  | none =>
    refine ⟨?_, ?_, ?_⟩
    · intro e he
      simp only [get_current_user, Except.error.injEq] at he
      subst he
      exact ⟨rfl, rfl⟩
    · constructor
      · rintro ⟨tp, htp⟩
        simp [get_current_user] at htp
      · rintro ⟨a, s, t, p, ha, -, -, -, -⟩
        simp at ha
    · intro a s t p ha
      simp at ha
  | some a =>
    by_cases hemp : a.isEmpty
    · refine ⟨?_, ?_, ?_⟩
      · intro e he
        rw [get_current_user_some_eq, if_pos hemp] at he
        simp only [Except.error.injEq] at he
        subst he
        exact ⟨rfl, rfl⟩
      · constructor
        · rintro ⟨tp, htp⟩
          rw [get_current_user_some_eq, if_pos hemp] at htp
          simp at htp
        · rintro ⟨a', s, t, p, ha, hne, -, -, -⟩
          injection ha with ha
          subst ha
          rw [hemp] at hne
          simp at hne
      · intro a' s t p ha hne
        injection ha with ha
        subst ha
        rw [hemp] at hne
        simp at hne
    · have hemp' : a.isEmpty = false := by simpa using hemp
      rcases hsp : pySplitWS a with _ | ⟨s, _ | ⟨t, _ | ⟨u, rest⟩⟩⟩
      · refine ⟨?_, ?_, ?_⟩
        · intro e he
          rw [get_current_user_some_eq, if_neg hemp, hsp] at he
          simp only [Except.error.injEq] at he
          subst he
          exact ⟨rfl, rfl⟩
        · constructor
          · rintro ⟨tp, htp⟩
            rw [get_current_user_some_eq, if_neg hemp, hsp] at htp
            simp at htp
          · rintro ⟨a', s', t', p', ha, -, hsp', -, -⟩
            injection ha with ha
            subst ha
            rw [hsp] at hsp'
            simp at hsp'
        · intro a' s' t' p' ha hne hsp'
          injection ha with ha
          subst ha
          rw [hsp] at hsp'
          simp at hsp'
      · refine ⟨?_, ?_, ?_⟩
        · intro e he
          rw [get_current_user_some_eq, if_neg hemp, hsp] at he
          simp only [Except.error.injEq] at he
          subst he
          exact ⟨rfl, rfl⟩
        · constructor
          · rintro ⟨tp, htp⟩
            rw [get_current_user_some_eq, if_neg hemp, hsp] at htp
            simp at htp
          · rintro ⟨a', s', t', p', ha, -, hsp', -, -⟩
            injection ha with ha
            subst ha
            rw [hsp] at hsp'
            simp at hsp'
        · intro a' s' t' p' ha hne hsp'
          injection ha with ha
          subst ha
          rw [hsp] at hsp'
          simp at hsp'
      · by_cases hb : pyLower s = "bearer".toList
        · cases hjd : joseDecode t with
          | ok p =>
            refine ⟨?_, ?_, ?_⟩
            · intro e he
              rw [get_current_user_some_eq, if_neg hemp, hsp] at he
              dsimp only at he
              rw [if_pos hb] at he
              simp [decode_token, hjd] at he
            · constructor
              · intro h0
                exact ⟨a, s, t, p, rfl, hemp', hsp, hb, hjd⟩
              · intro h0
                refine ⟨TokenPayload.ofDict p, ?_⟩
                rw [get_current_user_some_eq, if_neg hemp, hsp]
                dsimp only
                rw [if_pos hb, hjd]
                rfl
            · intro a' s' t' p' ha hne hsp' hb' hjd'
              injection ha with ha
              subst ha
              rw [hsp] at hsp'
              injection hsp' with h1 h2
              injection h2 with h2
              subst h1
              subst h2
              rw [hjd] at hjd'
              injection hjd' with hp
              subst hp
              rw [get_current_user_some_eq, if_neg hemp, hsp]
              dsimp only
              rw [if_pos hb, hjd]
              rfl
          | error msg =>
            refine ⟨?_, ?_, ?_⟩
            · intro e he
              rw [get_current_user_some_eq, if_neg hemp, hsp] at he
              dsimp only at he
              rw [if_pos hb] at he
              simp only [decode_token, hjd, Except.error.injEq] at he
              subst he
              exact ⟨rfl, rfl⟩
            · constructor
              · rintro ⟨tp, htp⟩
                rw [get_current_user_some_eq, if_neg hemp, hsp] at htp
                dsimp only at htp
                rw [if_pos hb] at htp
                simp [decode_token, hjd] at htp
              · rintro ⟨a', s', t', p', ha, -, hsp', -, hjd'⟩
                injection ha with ha
                subst ha
                rw [hsp] at hsp'
                injection hsp' with h1 h2
                injection h2 with h2
                subst h1
                subst h2
                rw [hjd] at hjd'
                simp at hjd'
            · intro a' s' t' p' ha hne hsp' hb' hjd'
              injection ha with ha
              subst ha
              rw [hsp] at hsp'
              injection hsp' with h1 h2
              injection h2 with h2
              subst h1
              subst h2
              rw [hjd] at hjd'
              simp at hjd'
        · refine ⟨?_, ?_, ?_⟩
          · intro e he
            rw [get_current_user_some_eq, if_neg hemp, hsp] at he
            dsimp only at he
            rw [if_neg hb] at he
            simp only [Except.error.injEq] at he
            subst he
            exact ⟨rfl, rfl⟩
          · constructor
            · rintro ⟨tp, htp⟩
              rw [get_current_user_some_eq, if_neg hemp, hsp] at htp
              dsimp only at htp
              rw [if_neg hb] at htp
              simp at htp
            · rintro ⟨a', s', t', p', ha, -, hsp', hb', -⟩
              injection ha with ha
              subst ha
              rw [hsp] at hsp'
              injection hsp' with h1 h2
              injection h2 with h2
              subst h1
              subst h2
              exact absurd hb' hb
          · intro a' s' t' p' ha hne hsp' hb' hjd'
            injection ha with ha
            subst ha
            rw [hsp] at hsp'
            injection hsp' with h1 h2
            injection h2 with h2
            subst h1
            subst h2
            exact absurd hb' hb
      · refine ⟨?_, ?_, ?_⟩
        · intro e he
          rw [get_current_user_some_eq, if_neg hemp, hsp] at he
          simp only [Except.error.injEq] at he
          subst he
          exact ⟨rfl, rfl⟩
        · constructor
          · rintro ⟨tp, htp⟩
            rw [get_current_user_some_eq, if_neg hemp, hsp] at htp
            simp at htp
          · rintro ⟨a', s', t', p', ha, -, hsp', -, -⟩
            injection ha with ha
            subst ha
            rw [hsp] at hsp'
            simp at hsp'
        · intro a' s' t' p' ha hne hsp'
          injection ha with ha
          subst ha
          rw [hsp] at hsp'
          simp at hsp'

theorem C8_authentication_characterization_witness :
    get_current_user (some "Bearer tok123".toList) joseStubExample =
      .ok (TokenPayload.ofDict { sub := some "user-1" }) :=
  (C8_authentication_characterization (some "Bearer tok123".toList) joseStubExample).2.2
    "Bearer tok123".toList "Bearer".toList "tok123".toList { sub := some "user-1" }
    rfl (by decide) (by decide) (by decide) rfl

/-- C9 counterexample: a popular-tags request with limit 150 is rejected
by route validation with 422 VALIDATION_ERROR rather than succeeding with
the clamped limit, even though the service itself would clamp 150 to
100. -/
theorem C9_counterexample_overlimit_rejected :
    popular_tags_route 150 none = .error requestValidationError ∧
    requestValidationError.status_code = 422 ∧
    (get_popular_tags 150 none).1 = 100 := by
  refine ⟨rfl, rfl, by decide⟩

/-- C9 amended: the service clamps the limit it passes to the collaborator
with min to 100, but the route bounds the limit parameter to the range 1
to 100 and rejects out-of-range requests with 422 VALIDATION_ERROR, so an
accepted request always runs with its requested limit. -/
theorem C9_limit_clamp (limit : Int) (pfx : Option String) :
    (get_popular_tags limit pfx).1 = min limit 100 ∧
    (get_popular_tags limit pfx).1 ≤ 100 ∧
    (1 ≤ limit → limit ≤ 100 → popular_tags_route limit pfx = .ok (limit, pfx)) ∧
    (100 < limit → popular_tags_route limit pfx = .error requestValidationError) ∧
    (limit < 1 → popular_tags_route limit pfx = .error requestValidationError) := by
  refine ⟨rfl, min_le_right _ _, ?_, ?_, ?_⟩
  · intro h1 h2
    have ha : ¬ (limit < 1) := by omega
    have hb : ¬ (100 < limit) := by omega
    simp [popular_tags_route, get_popular_tags, ha, hb, min_eq_left h2]
  · intro h
    simp [popular_tags_route, h]
  · intro h
    simp [popular_tags_route, h]

theorem C9_limit_clamp_witness :
    popular_tags_route 50 none = .ok (50, none) ∧
    popular_tags_route 101 none = .error requestValidationError ∧
    popular_tags_route 0 none = .error requestValidationError :=
  ⟨(C9_limit_clamp 50 none).2.2.1 (by decide) (by decide),
   (C9_limit_clamp 101 none).2.2.2.1 (by decide),
   (C9_limit_clamp 0 none).2.2.2.2 (by decide)⟩
